import Mathlib

set_option maxHeartbeats 1000000

/-!
Verification development for the s3-reproxy core (Rust sources under src/).
Each Rust function used by the claims is shallowly embedded as an executable
Lean definition; asynchronous channel traffic is modelled by explicit lists
of events or by reply functions, and fallible calls return Option or Except.
-/

/-! ### Error taxonomy (src/server/mod.rs) -/

/-- Payload of an aws-sdk ServiceError as used by convert_sdk_err:
the error metadata code, message, request id, and the raw HTTP status. -/
structure ServiceErrorData where
  code : Option String
  message : Option String
  requestId : Option String
  status : Nat
deriving Repr, DecidableEq

/-- An s3s S3Error as produced by the proxy: an S3 error code string plus
optional message, request id, and an optional explicit HTTP status
(set only by convert_sdk_err; the s3_error! macro leaves it unset). -/
structure S3Error where
  code : String
  message : Option String := none
  requestId : Option String := none
  status : Option Nat := none
deriving Repr, DecidableEq

/-- Modelled from the s3s library interface: the set of error code strings
recognized by S3ErrorCode::from_bytes (a representative subset of the full
S3 taxonomy; the proxy only tests membership). -/
def knownS3Codes : List String :=
  ["AccessDenied", "InternalError", "InvalidToken", "NoSuchBucket", "NoSuchKey",
   "NoSuchUpload", "PreconditionFailed", "SlowDown"]

/-- Error returned by `s3_error!(InternalError)` in src/server/mod.rs. -/
def internalError : S3Error := { code := "InternalError" }

/-- Error returned for continuation-token failures in list_objects_v2. -/
def invalidToken : S3Error := { code := "InvalidToken" }

/-- Embeds convert_sdk_err (src/server/mod.rs lines 39-57): start from
InternalError, copy the code when recognized, copy message and request id
when present, and always copy the numeric HTTP status. -/
def convert_sdk_err (sdk : ServiceErrorData) : S3Error :=
  { code :=
      match sdk.code with
      | some s => if s ∈ knownS3Codes then s else "InternalError"
      | none => "InternalError"
    message := sdk.message
    requestId := sdk.requestId
    status := some sdk.status }

/-! ### Write fan-out dispatch (src/server/mod.rs put_object, delete_object,
delete_objects, and output_remote_inconsistent) -/

/-- Reply collected from one remote actor: `none` models "no reply"
(mailbox send failed, reply channel dropped, or the actor replied None after
a transport-level SDK failure); `some` carries the service-level result. -/
abbrev RemoteReply (T : Type) := Option (Except ServiceErrorData T)

/-- Embeds the per-remote collection loop of put_object / delete_object /
delete_objects: each remote yields `Some((name, result))` or is skipped with
a warning, and `.filter_map(|e| async { e })` drops the skipped remotes. -/
def collect_results {T : Type} (replies : List (String × RemoteReply T)) :
    List (String × Except ServiceErrorData T) :=
  replies.filterMap (fun p =>
    match p.2 with
    | none => none
    | some r => some (p.1, r))

/-- Embeds the partition_map step of output_remote_inconsistent:
Ok results go to successes (left), Err results to failures (right),
both preserving input order. -/
def partition_results {T : Type} :
    List (String × Except ServiceErrorData T) →
      List (String × T) × List (String × ServiceErrorData)
  | [] => ([], [])
  | (n, Except.ok t) :: rest =>
      let (s, f) := partition_results rest
      ((n, t) :: s, f)
  | (n, Except.error e) :: rest =>
      let (s, f) := partition_results rest
      (s, (n, e) :: f)

/-- Embeds output_remote_inconsistent (src/server/mod.rs lines 432-470):
partition into successes and failures; no failures → first success (or
InternalError when there is no result at all); no successes → first failure
mapped through convert_sdk_err; mixed → first success. -/
def output_remote_inconsistent {T : Type}
    (results : List (String × Except ServiceErrorData T)) : Except S3Error T :=
  let (successes, failures) := partition_results results
  if failures.isEmpty then
    match successes with
    | [] => Except.error internalError
    | (_, reply) :: _ => Except.ok reply
  else if successes.isEmpty then
    match failures with
    | (_, e) :: _ => Except.error (convert_sdk_err e)
    | [] => Except.error internalError
  else
    match successes with
    | (_, reply) :: _ => Except.ok reply
    | [] => Except.error internalError

/-- Embeds the reconciliation performed by the write fan-out paths:
collect the per-remote replies, drop the remotes that gave no reply, and
reconcile through output_remote_inconsistent. -/
def write_dispatch {T : Type} (replies : List (String × RemoteReply T)) :
    Except S3Error T :=
  output_remote_inconsistent (collect_results replies)

theorem partition_results_fst_nil {T : Type}
    (results : List (String × Except ServiceErrorData T))
    (h : ∀ p ∈ results, ∃ e, p.2 = Except.error e) :
    (partition_results results).1 = [] := by
  induction results with
  | nil => rfl
  | cons p rest ih =>
    obtain ⟨n, r⟩ := p
    match r with
    | Except.ok t =>
      exact absurd (h (n, Except.ok t) (by simp)) (by simp)
    | Except.error e =>
      simp only [partition_results]
      exact ih (fun q hq => h q (List.mem_cons_of_mem _ hq))

theorem collect_results_all_none {T : Type}
    (replies : List (String × RemoteReply T))
    (h : ∀ p ∈ replies, p.2 = none) :
    collect_results replies = [] := by
  induction replies with
  | nil => rfl
  | cons p rest ih =>
    obtain ⟨n, r⟩ := p
    have hp := h (n, r) (by simp)
    simp only at hp
    subst hp
    simp only [collect_results, List.filterMap_cons]
    exact ih (fun q hq => h q (List.mem_cons_of_mem _ hq))

/-- C1 counterexample: with a single remote failing at the transport level
(reply `none`), the partition of the collected results contains no failure at
all — the transport failure was dropped by filter_map before
output_remote_inconsistent — and the response is the bare InternalError of
the "no remotes available" branch, not the transport failure mapped through
the S3 taxonomy. This refutes the claim that failures include "no reply" and
that an all-transport-failure run returns the first failure mapped. -/
theorem write_dispatch_transport_counterexample :
    (partition_results (collect_results
        [(("r1" : String), (none : RemoteReply Nat))])).2 = []
  ∧ write_dispatch [(("r1" : String), (none : RemoteReply Nat))]
      = Except.error internalError :=
  ⟨rfl, rfl⟩

/-- C1 (amended): the write fan-out paths drop the remotes that gave no reply
before partitioning, so failures contain only service errors; when every
remote fails at the transport level the client receives InternalError
("no remotes available"); when the partition has a first success it is
returned (all-success and mixed cases alike); when there are only service
failures the first one is mapped through convert_sdk_err. -/
theorem write_dispatch_reconciliation {T : Type}
    (replies : List (String × RemoteReply T)) :
    ((∀ p ∈ replies, p.2 = none) →
        write_dispatch replies = Except.error internalError)
  ∧ (∀ n t s, (partition_results (collect_results replies)).1 = (n, t) :: s →
        write_dispatch replies = Except.ok t)
  ∧ (∀ m e f, (partition_results (collect_results replies)).1 = [] →
        (partition_results (collect_results replies)).2 = (m, e) :: f →
        write_dispatch replies = Except.error (convert_sdk_err e)) := by
  refine ⟨?_, ?_, ?_⟩
  · intro h
    unfold write_dispatch
    rw [collect_results_all_none replies h]
    rfl
  · intro n t s hs
    unfold write_dispatch output_remote_inconsistent
    rcases hpr : partition_results (collect_results replies) with ⟨S, F⟩
    rw [hpr] at hs
    simp only at hs
    subst hs
    by_cases hF : F.isEmpty <;> simp [hF]
  · intro m e f hs hf
    unfold write_dispatch output_remote_inconsistent
    rcases hpr : partition_results (collect_results replies) with ⟨S, F⟩
    rw [hpr] at hs hf
    simp only at hs hf
    subst hs
    subst hf
    simp

/-- Witness for write_dispatch_reconciliation: one remote replying with a
NoSuchKey service error is an all-failure run, and the response is that
error mapped through convert_sdk_err. -/
theorem write_dispatch_reconciliation_witness :
    write_dispatch
        [(("a" : String),
          (some (Except.error ⟨some "NoSuchKey", some "missing", none, 404⟩) :
            RemoteReply Nat))]
      = Except.error (convert_sdk_err ⟨some "NoSuchKey", some "missing", none, 404⟩) :=
  (write_dispatch_reconciliation _).2.2 "a"
    ⟨some "NoSuchKey", some "missing", none, 404⟩ [] rfl rfl

/-! ### Read-path ordered probe (src/server/mod.rs get_object lines 221-266,
head_object lines 268-313, list_objects_v2 lines 355-389, and
src/server/remote.rs S3Remote) -/

/-- The dispatcher-visible part of an S3Remote (src/server/remote.rs lines
29-35); the mailbox sender is modelled by a reply function at the use site. -/
structure S3Remote where
  name : String
  priority : Nat
  read_request : Bool
deriving Repr, DecidableEq

/-- Embeds the read-path comparator
`b.read_request.cmp(&a.read_request).then_with(|| b.priority.cmp(&a.priority))`:
read_request descending (true first) then priority descending. -/
def readCmp (a b : S3Remote) : Ordering :=
  (compare b.read_request a.read_request).then (compare b.priority a.priority)

/-- Numeric view of read_request used to reason about the comparator. -/
def rrNat (b : Bool) : Nat := cond b 1 0

/-- Strict order on remotes under (read_request, priority), read as:
a is strictly below b. -/
def keyLt (a b : S3Remote) : Prop :=
  rrNat a.read_request < rrNat b.read_request ∨
    (rrNat a.read_request = rrNat b.read_request ∧ a.priority < b.priority)

instance (a b : S3Remote) : Decidable (keyLt a b) := by
  unfold keyLt
  exact inferInstance

theorem readCmp_gt_iff (a b : S3Remote) : readCmp a b = Ordering.gt ↔ keyLt a b := by
  unfold readCmp keyLt rrNat
  cases ha : a.read_request <;> cases hb : b.read_request <;>
    simp [compare, compareOfLessAndEq, Ordering.then, Nat.compare_eq_gt] <;> omega

/-- One insertion step of a stable comparator sort (the behavior of the
itertools sorted_by used by the read paths). -/
def insertSortedBy (cmp : S3Remote → S3Remote → Ordering) (x : S3Remote) :
    List S3Remote → List S3Remote
  | [] => [x]
  | y :: ys =>
      if cmp x y = Ordering.gt then y :: insertSortedBy cmp x ys
      else x :: y :: ys

/-- Embeds `.sorted_by(cmp)` of the read paths as an insertion sort by the
same comparator (itertools sorted_by is a stable comparator sort; the claims
only depend on the resulting order, which any such sort realizes). -/
def sorted_by (cmp : S3Remote → S3Remote → Ordering) : List S3Remote → List S3Remote
  | [] => []
  | x :: xs => insertSortedBy cmp x (sorted_by cmp xs)

theorem mem_insertSortedBy (x z : S3Remote) (l : List S3Remote) :
    z ∈ insertSortedBy readCmp x l ↔ z = x ∨ z ∈ l := by
  induction l with
  | nil => simp [insertSortedBy]
  | cons y ys ih =>
    by_cases h : readCmp x y = Ordering.gt
    · simp only [insertSortedBy, h, if_pos, List.mem_cons, ih]
      tauto
    · simp only [insertSortedBy, h, if_neg, not_false_iff, List.mem_cons, ih]

theorem mem_sorted_by (z : S3Remote) (l : List S3Remote) :
    z ∈ sorted_by readCmp l ↔ z ∈ l := by
  induction l with
  | nil => simp [sorted_by]
  | cons y ys ih => simp [sorted_by, mem_insertSortedBy, ih]

theorem keyLt_asymm (a b : S3Remote) (h : keyLt a b) : ¬ keyLt b a := by
  unfold keyLt at *
  omega

theorem not_keyLt_trans (a b c : S3Remote)
    (hab : ¬ keyLt a b) (hbc : ¬ keyLt b c) : ¬ keyLt a c := by
  unfold keyLt at *
  omega

theorem not_keyLt_total (a b : S3Remote) (h : ¬ readCmp a b = Ordering.gt) :
    ¬ keyLt a b := by
  rw [← readCmp_gt_iff]
  exact h

theorem pairwise_insertSortedBy (x : S3Remote) (l : List S3Remote)
    (h : l.Pairwise (fun a b => ¬ keyLt a b)) :
    (insertSortedBy readCmp x l).Pairwise (fun a b => ¬ keyLt a b) := by
  induction l with
  | nil => simp [insertSortedBy]
  | cons y ys ih =>
    rcases List.pairwise_cons.mp h with ⟨hy, hys⟩
    by_cases hgt : readCmp x y = Ordering.gt
    · simp only [insertSortedBy, hgt, if_pos]
      refine List.pairwise_cons.mpr ⟨?_, ih hys⟩
      intro z hz
      rcases (mem_insertSortedBy x z ys).mp hz with hz | hz
      · rw [hz]
        exact keyLt_asymm x y ((readCmp_gt_iff x y).mp hgt)
      · exact hy z hz
    · simp only [insertSortedBy, hgt, if_neg, not_false_iff]
      refine List.pairwise_cons.mpr ⟨?_, h⟩
      intro z hz
      rcases List.mem_cons.mp hz with hz | hz
      · rw [hz]
        exact not_keyLt_total x y hgt
      · exact not_keyLt_trans x y z (not_keyLt_total x y hgt) (hy z hz)

theorem pairwise_sorted_by (l : List S3Remote) :
    (sorted_by readCmp l).Pairwise (fun a b => ¬ keyLt a b) := by
  induction l with
  | nil => simp [sorted_by]
  | cons y ys ih => exact pairwise_insertSortedBy y (sorted_by readCmp ys) ih

/-- Embeds the sequential probe loop of the read paths: iterate the sorted
remotes, skip a remote when its reply is none (transport failure), stop at
the first some reply, returning it together with the remote. -/
def probe_remotes {T : Type} (reply : S3Remote → RemoteReply T) :
    List S3Remote → Option (S3Remote × Except ServiceErrorData T)
  | [] => none
  | r :: rs =>
      match reply r with
      | none => probe_remotes reply rs
      | some out => some (r, out)

/-- Embeds the full read dispatch shared by get_object, head_object and the
backend call of list_objects_v2: sort by readCmp, probe sequentially, return
InternalError when every remote is skipped, otherwise the first reply with
service errors mapped through convert_sdk_err (the s3s output conversion of
a successful reply is treated as the identity). -/
def read_dispatch {T : Type} (reply : S3Remote → RemoteReply T)
    (remotes : List S3Remote) : Except S3Error T :=
  match probe_remotes reply (sorted_by readCmp remotes) with
  | none => Except.error internalError
  | some (_, Except.ok t) => Except.ok t
  | some (_, Except.error e) => Except.error (convert_sdk_err e)

theorem probe_remotes_eq_none {T : Type} (reply : S3Remote → RemoteReply T)
    (l : List S3Remote) :
    probe_remotes reply l = none ↔ ∀ r ∈ l, reply r = none := by
  induction l with
  | nil => simp [probe_remotes]
  | cons r rs ih =>
    rcases hr : reply r with _ | out <;> simp [probe_remotes, hr, ih]

theorem probe_remotes_eq_some {T : Type} (reply : S3Remote → RemoteReply T)
    (l : List S3Remote) (r : S3Remote) (out : Except ServiceErrorData T)
    (h : probe_remotes reply l = some (r, out)) :
    reply r = some out ∧
      ∃ pre post, l = pre ++ r :: post ∧ ∀ x ∈ pre, reply x = none := by
  induction l with
  | nil => simp [probe_remotes] at h
  | cons y ys ih =>
    rcases hy : reply y with _ | o
    · simp only [probe_remotes, hy] at h
      rcases ih h with ⟨hr, pre, post, hsplit, hpre⟩
      refine ⟨hr, y :: pre, post, by simp [hsplit], ?_⟩
      intro x hx
      rcases List.mem_cons.mp hx with hx | hx
      · rw [hx]; exact hy
      · exact hpre x hx
    · simp only [probe_remotes, hy, Option.some.injEq, Prod.mk.injEq] at h
      obtain ⟨rfl, rfl⟩ := h
      exact ⟨hy, [], ys, rfl, by simp⟩

theorem keyLt_irrefl (a : S3Remote) : ¬ keyLt a a := by
  unfold keyLt
  omega

/-- C4: every read path (get_object, head_object, list_objects_v2) probes
the remotes sorted by read_request descending then priority descending,
skips a remote exactly when its reply is none, returns the first some reply
(success as success, service error mapped through convert_sdk_err), and
returns InternalError when no remote yields a some; the remote whose reply
is used is maximal under (read_request desc, priority desc) among the
remotes that returned a non-transport reply. -/
theorem read_dispatch_order {T : Type} (reply : S3Remote → RemoteReply T)
    (remotes : List S3Remote) :
    ((∀ r ∈ remotes, reply r = none) →
        read_dispatch reply remotes = Except.error internalError)
  ∧ (∀ r out, probe_remotes reply (sorted_by readCmp remotes) = some (r, out) →
        reply r = some out ∧ r ∈ remotes ∧
        (∀ s ∈ remotes, reply s ≠ none → ¬ keyLt r s) ∧
        read_dispatch reply remotes =
          (match out with
           | Except.ok t => Except.ok t
           | Except.error e => Except.error (convert_sdk_err e)))
  ∧ ((∃ r ∈ remotes, reply r ≠ none) →
        probe_remotes reply (sorted_by readCmp remotes) ≠ none) := by
  refine ⟨?_, ?_, ?_⟩
  · intro h
    have hnone : probe_remotes reply (sorted_by readCmp remotes) = none := by
      rw [probe_remotes_eq_none]
      intro r hr
      exact h r ((mem_sorted_by r remotes).mp hr)
    unfold read_dispatch
    rw [hnone]
  · intro r out hp
    rcases probe_remotes_eq_some reply _ r out hp with ⟨hr, pre, post, hsplit, hpre⟩
    have hmem : r ∈ remotes := by
      rw [← mem_sorted_by r remotes, hsplit]
      simp
    refine ⟨hr, hmem, ?_, ?_⟩
    · intro s hs hsome
      have hsorted : s ∈ sorted_by readCmp remotes := (mem_sorted_by s remotes).mpr hs
      rw [hsplit] at hsorted
      rcases List.mem_append.mp hsorted with hspre | hsrest
      · exact absurd (hpre s hspre) hsome
      · rcases List.mem_cons.mp hsrest with hseq | hspost
        · rw [hseq]
          exact keyLt_irrefl r
        · have hpw := pairwise_sorted_by remotes
          rw [hsplit] at hpw
          rcases List.pairwise_append.mp hpw with ⟨_, hrest, _⟩
          exact (List.pairwise_cons.mp hrest).1 s hspost
    · unfold read_dispatch
      rw [hp]
      cases out <;> rfl
  · intro hex hnone
    rcases hex with ⟨r, hr, hne⟩
    exact hne ((probe_remotes_eq_none reply _).mp hnone r ((mem_sorted_by r remotes).mpr hr))

/-- Concrete remote with higher priority used by the read-path witness. -/
def witRemA : S3Remote := { name := "alpha", priority := 5, read_request := true }

/-- Concrete remote with lower priority used by the read-path witness. -/
def witRemB : S3Remote := { name := "beta", priority := 1, read_request := true }

/-- Concrete reply function for the read-path witness: the higher-priority
remote fails at the transport level, the lower-priority one replies. -/
def witReadReply : S3Remote → RemoteReply Nat :=
  fun r => if r.name = "beta" then some (Except.ok 7) else none

/-- Witness for read_dispatch_order: with the higher-priority remote down at
the transport level, the reply of the lower-priority readable remote is
returned. -/
theorem read_dispatch_order_witness :
    read_dispatch witReadReply [witRemB, witRemA] = Except.ok 7 :=
  ((read_dispatch_order witReadReply [witRemB, witRemA]).2.1 witRemB
    (Except.ok 7) rfl).2.2.2

/-! ### Byte-stream multiplexer (src/server/stream.rs) -/

/-- One payload published by the producer task into the broadcaster:
`data.map_err(|e| ByteStreamError::ByteStreamError(e.to_string()))`.
Bytes are modelled as lists of naturals. -/
abbrev Payload := Except String (List Nat)

deriving instance DecidableEq for Except

/-- One event observed by the broadcaster select loop: a new subscription
request, a payload forwarded by the producer, or the closing of the
subscribe channel (the multiplier handle being dropped). -/
inductive MuxEvent where
  | subscribe
  | frame (p : Payload)
  | closeSubscribe
deriving Repr, DecidableEq

/-- Broadcaster state (src/server/stream.rs lines 59-102): the frame cache,
the per-subscriber queues (modelled by the list of payloads delivered to
each subscriber so far), the will_be_new_tx flag, whether the subscribe
channel has been closed, whether the loop has exited through the
"new tx is not allowed" break, and the ghost list of every payload the
producer has published. -/
structure MuxState where
  read_cache : List Payload
  subs : List (List Payload)
  will_be_new_tx : Bool
  subscribe_closed : Bool
  halted : Bool
  seen : List Payload
deriving Repr, DecidableEq

/-- Initial broadcaster state: empty cache, no subscribers,
will_be_new_tx = true. -/
def mux_init : MuxState :=
  { read_cache := [], subs := [], will_be_new_tx := true,
    subscribe_closed := false, halted := false, seen := [] }

/-- One iteration of the broadcaster select loop. A subscription is accepted
only while will_be_new_tx holds, and the new queue is immediately replayed
every cached frame; otherwise the loop logs "new tx is not allowed" and
breaks (halted). On a producer frame the loop first notices a closed
subscribe channel (flipping will_be_new_tx), then fans the frame to every
live subscriber, and appends it to read_cache only while new subscribers
are still permitted. -/
def mux_step (s : MuxState) (e : MuxEvent) : MuxState :=
  if s.halted then s
  else
    match e with
    | MuxEvent.subscribe =>
        if s.will_be_new_tx then { s with subs := s.subs ++ [s.read_cache] }
        else { s with halted := true }
    | MuxEvent.closeSubscribe => { s with subscribe_closed := true }
    | MuxEvent.frame p =>
        let wbn := if s.subscribe_closed && s.will_be_new_tx then false
                   else s.will_be_new_tx
        { s with
            will_be_new_tx := wbn,
            subs := s.subs.map (fun d => d ++ [p]),
            read_cache := if wbn then s.read_cache ++ [p] else s.read_cache,
            seen := s.seen ++ [p] }

/-- Run of the broadcaster over a finite interleaving of events. -/
def mux_run (es : List MuxEvent) : MuxState := es.foldl mux_step mux_init

/-- Invariant of the broadcaster: while new subscribers are permitted the
cache holds exactly the published payloads, and every subscriber queue has
been handed exactly the published payloads in order. -/
def MuxInv (s : MuxState) : Prop :=
  (s.will_be_new_tx = true → s.read_cache = s.seen) ∧
    (∀ d ∈ s.subs, d = s.seen)

theorem mux_subs_frame_aux (s : MuxState) (p : Payload)
    (hsubs : ∀ d ∈ s.subs, d = s.seen) :
    ∀ d ∈ s.subs.map (fun d => d ++ [p]), d = s.seen ++ [p] := by
  intro d hd
  obtain ⟨d0, hd0, hde⟩ := List.mem_map.mp hd
  rw [← hde, hsubs d0 hd0]

theorem mux_step_inv (s : MuxState) (e : MuxEvent) (h : MuxInv s) :
    MuxInv (mux_step s e) := by
  rcases h with ⟨hcache, hsubs⟩
  cases hh : s.halted
  · cases e with
    | subscribe =>
      cases hw : s.will_be_new_tx
      · have hstep : mux_step s MuxEvent.subscribe = { s with halted := true } := by
          simp [mux_step, hh, hw]
        rw [hstep]
        exact ⟨hcache, hsubs⟩
      · have hstep : mux_step s MuxEvent.subscribe
            = { s with subs := s.subs ++ [s.read_cache] } := by
          simp [mux_step, hh, hw]
        rw [hstep]
        refine ⟨hcache, ?_⟩
        intro d hd
        rcases List.mem_append.mp hd with hd | hd
        · exact hsubs d hd
        · rw [List.mem_singleton.mp hd]
          exact hcache hw
    | closeSubscribe =>
      have hstep : mux_step s MuxEvent.closeSubscribe
          = { s with subscribe_closed := true } := by
        simp [mux_step, hh]
      rw [hstep]
      exact ⟨hcache, hsubs⟩
    | frame p =>
      cases hw : s.will_be_new_tx
      · have hstep : mux_step s (MuxEvent.frame p)
            = { s with will_be_new_tx := false,
                       subs := s.subs.map (fun d => d ++ [p]),
                       seen := s.seen ++ [p] } := by
          simp [mux_step, hh, hw]
        rw [hstep]
        exact ⟨by intro hx; simp at hx, mux_subs_frame_aux s p hsubs⟩
      · cases hsc : s.subscribe_closed
        · have hstep : mux_step s (MuxEvent.frame p)
              = { s with subs := s.subs.map (fun d => d ++ [p]),
                         read_cache := s.read_cache ++ [p],
                         seen := s.seen ++ [p] } := by
            simp [mux_step, hh, hw, hsc]
          rw [hstep]
          refine ⟨?_, mux_subs_frame_aux s p hsubs⟩
          intro _
          rw [hcache hw]
        · have hstep : mux_step s (MuxEvent.frame p)
              = { s with will_be_new_tx := false,
                         subs := s.subs.map (fun d => d ++ [p]),
                         seen := s.seen ++ [p] } := by
            simp [mux_step, hh, hw, hsc]
          rw [hstep]
          exact ⟨by intro hx; simp at hx, mux_subs_frame_aux s p hsubs⟩
  · have hstep : mux_step s e = s := by
      simp [mux_step, hh]
    rw [hstep]
    exact ⟨hcache, hsubs⟩

theorem mux_run_inv_aux (es : List MuxEvent) (s : MuxState) (h : MuxInv s) :
    MuxInv (es.foldl mux_step s) := by
  induction es generalizing s with
  | nil => exact h
  | cons e rest ih => exact ih (mux_step s e) (mux_step_inv s e h)

/-- Every subscriber queue of a broadcaster run has been handed exactly the
payloads published by the producer, in order. -/
theorem mux_subs_eq_seen (es : List MuxEvent) :
    ∀ d ∈ (mux_run es).subs, d = (mux_run es).seen :=
  (mux_run_inv_aux es mux_init ⟨fun _ => rfl, by simp [mux_init]⟩).2

/-- While will_be_new_tx holds at the end of a run, the cache holds exactly
the published payloads. -/
theorem mux_cache_eq_seen (es : List MuxEvent)
    (h : (mux_run es).will_be_new_tx = true) :
    (mux_run es).read_cache = (mux_run es).seen :=
  (mux_run_inv_aux es mux_init ⟨fun _ => rfl, by simp [mux_init]⟩).1 h

theorem mux_no_close_aux (es : List MuxEvent) (s : MuxState)
    (hclose : MuxEvent.closeSubscribe ∉ es)
    (hs : s.subscribe_closed = false ∧ s.will_be_new_tx = true ∧ s.halted = false) :
    (es.foldl mux_step s).subscribe_closed = false ∧
      (es.foldl mux_step s).will_be_new_tx = true ∧
      (es.foldl mux_step s).halted = false := by
  induction es generalizing s with
  | nil => exact hs
  | cons e rest ih =>
    rcases hs with ⟨hc, hw, hh⟩
    have hnotc : e ≠ MuxEvent.closeSubscribe := fun h => hclose (h ▸ List.mem_cons_self e rest)
    have hrest : MuxEvent.closeSubscribe ∉ rest := fun h => hclose (List.mem_cons_of_mem e h)
    refine ih (mux_step s e) hrest ?_
    unfold mux_step
    cases e with
    | subscribe => simp [hh, hw, hc]
    | closeSubscribe => exact absurd rfl hnotc
    | frame p => simp [hh, hw, hc]

/-- While the subscribe handle has not been dropped, will_be_new_tx stays
true and the cache keeps receiving every frame. -/
theorem mux_no_close (es : List MuxEvent)
    (hclose : MuxEvent.closeSubscribe ∉ es) :
    (mux_run es).will_be_new_tx = true ∧
      (mux_run es).read_cache = (mux_run es).seen := by
  have h := mux_no_close_aux es mux_init hclose (by simp [mux_init])
  exact ⟨h.2.1, mux_cache_eq_seen es h.2.1⟩

/-- Result of one poll of a subscriber body (ByteStreamReceiver::poll_frame,
src/server/stream.rs lines 160-180): a data frame, an error frame, or a
clean end-of-stream. -/
inductive PollResult where
  | dataFrame (b : List Nat)
  | errorFrame (msg : String)
  | endOfStream
deriving Repr, DecidableEq

/-- Embeds the match inside poll_frame: an item Some(Some(frame)) is mapped
to a data or error frame, an item Some(None) to clean end-of-stream, and a
closed channel (poll_recv returning None) to a Disconnected error frame
(ByteStreamError::Disconnected displays as "disconnected"). -/
def poll_frame : Option (Option Payload) → PollResult
  | some (some (Except.ok b)) => PollResult.dataFrame b
  | some (some (Except.error m)) => PollResult.errorFrame m
  | some none => PollResult.endOfStream
  | none => PollResult.errorFrame "disconnected"

/-- The poll sequence a subscriber observes over its whole life: the
producer and broadcaster only ever enqueue Some(payload) items
(src/server/stream.rs lines 48, 75, 86), so each delivered payload is
polled as an item Some(Some(payload)); when the broadcaster exits it drops
the subscriber sender, and the drained closed queue is polled as None. -/
def subscriber_polls (delivered : List Payload) : List PollResult :=
  delivered.map (fun p => poll_frame (some (some p))) ++ [poll_frame none]

/-- Concatenation of the data frames of a payload sequence. -/
def dataBytes : List Payload → List Nat
  | [] => []
  | Except.ok b :: rest => b ++ dataBytes rest
  | Except.error _ :: rest => dataBytes rest

/-- C2 counterexample: a subscriber of a one-frame body is handed the frame,
and at producer EOF its queue is closed by dropping, so its final poll is a
Disconnected error frame; a clean end-of-stream is never observed because no
Some(None) item is ever sent. This refutes the closed-cleanly half of the
claim. -/
theorem mux_eof_counterexample :
    (mux_run [MuxEvent.subscribe, MuxEvent.frame (Except.ok [104, 105]),
        MuxEvent.closeSubscribe]).subs = [[Except.ok [104, 105]]]
  ∧ subscriber_polls [Except.ok [104, 105]]
      = [PollResult.dataFrame [104, 105], PollResult.errorFrame "disconnected"]
  ∧ PollResult.endOfStream ∉ subscriber_polls [Except.ok [104, 105]] :=
  ⟨rfl, rfl, by decide⟩

/-- C2 (amended): every two subscribers of one multiplexer run are delivered
identical payload sequences whose data concatenation equals the streamed
body (late subscribers included, replayed from the cache); but at producer
EOF a subscriber stream is not closed cleanly: its queue is closed by
dropping, surfacing as a final Disconnected error frame, and a clean
end-of-stream item is never observed. -/
theorem mux_broadcast_and_eof (es : List MuxEvent) :
    (∀ X ∈ (mux_run es).subs, ∀ Y ∈ (mux_run es).subs,
        X = Y ∧ dataBytes X = dataBytes (mux_run es).seen)
  ∧ (∀ delivered : List Payload,
        (subscriber_polls delivered).getLast?
            = some (PollResult.errorFrame "disconnected")
      ∧ PollResult.endOfStream ∉ subscriber_polls delivered) := by
  constructor
  · intro X hX Y hY
    rw [mux_subs_eq_seen es X hX, mux_subs_eq_seen es Y hY]
    exact ⟨rfl, rfl⟩
  · intro delivered
    constructor
    · unfold subscriber_polls
      rw [List.getLast?_concat]
      rfl
    · intro hmem
      unfold subscriber_polls at hmem
      rcases List.mem_append.mp hmem with hmem | hmem
      · obtain ⟨p, _, hpe⟩ := List.mem_map.mp hmem
        cases p <;> simp [poll_frame] at hpe
      · rw [List.mem_singleton] at hmem
        simp [poll_frame] at hmem

/-- Witness for mux_broadcast_and_eof: a run with an early and a late
subscriber, where the late subscriber is replayed the cached first frame. -/
theorem mux_broadcast_and_eof_witness :
    ([Except.ok [1, 2], Except.ok [3]] : List Payload)
        = [Except.ok [1, 2], Except.ok [3]]
  ∧ dataBytes [Except.ok [1, 2], Except.ok [3]]
      = dataBytes (mux_run [MuxEvent.subscribe, MuxEvent.frame (Except.ok [1, 2]),
          MuxEvent.subscribe, MuxEvent.frame (Except.ok [3])]).seen :=
  (mux_broadcast_and_eof
      [MuxEvent.subscribe, MuxEvent.frame (Except.ok [1, 2]),
       MuxEvent.subscribe, MuxEvent.frame (Except.ok [3])]).1
    [Except.ok [1, 2], Except.ok [3]] (by decide)
    [Except.ok [1, 2], Except.ok [3]] (by decide)

/-! ### put_object dispatcher sequencing (src/server/mod.rs lines 106-147) -/

/-- One step of the put_object handler, as visible to the multiplexer:
subscribing a stream for a remote (input_multiplier.input()), sending the
PutObject message, awaiting the oneshot reply, and the drop of the
input multiplier (which owns the subscribe sender) at the end of the
handler scope. -/
inductive PutStep where
  | subscribeStream (remote : String)
  | sendPut (remote : String)
  | awaitReply (remote : String)
  | dropMultiplier
deriving Repr, DecidableEq

/-- First collect phase of put_object (lines 113-121): every remote gets a
fresh subscribed input before any message is sent. -/
def put_object_phase1 (remotes : List String) : List PutStep :=
  remotes.map PutStep.subscribeStream

/-- Second collect phase of put_object (lines 122-142): per remote, send the
PutObject message and await the reply (a linearization of the concurrent
buffer_unordered collect; the claims only depend on every send/await lying
between the two phase boundaries, which holds in every interleaving). -/
def put_object_phase2 (remotes : List String) : List PutStep :=
  remotes.foldr (fun r acc => PutStep.sendPut r :: PutStep.awaitReply r :: acc) []

/-- The event order of one put_object call: subscribe all remotes, then send
and await all remotes, then reconcile and return, dropping the input
multiplier (and with it the subscribe sender) last. No close() call exists
in put_object. -/
def put_object_trace (remotes : List String) : List PutStep :=
  put_object_phase1 remotes ++ put_object_phase2 remotes ++ [PutStep.dropMultiplier]

/-- Holds when some occurrence of a is strictly followed by an occurrence
of b in the list. -/
def beforeIn {α : Type} [DecidableEq α] (a b : α) : List α → Bool
  | [] => false
  | x :: xs => (decide (x = a) && decide (b ∈ xs)) || beforeIn a b xs

theorem beforeIn_append {α : Type} [DecidableEq α] (a b : α) (l1 l2 : List α)
    (ha : a ∈ l1) (hb : b ∈ l2) : beforeIn a b (l1 ++ l2) = true := by
  induction l1 with
  | nil => simp at ha
  | cons x xs ih =>
    rw [List.cons_append]
    rcases List.mem_cons.mp ha with rfl | h1
    · simp [beforeIn, List.mem_append, hb]
    · simp [beforeIn, ih h1]

theorem awaitReply_mem_phase2 (remotes : List String) (r : String)
    (h : r ∈ remotes) : PutStep.awaitReply r ∈ put_object_phase2 remotes := by
  induction remotes with
  | nil => simp at h
  | cons x xs ih =>
    show PutStep.awaitReply r ∈
      PutStep.sendPut x :: PutStep.awaitReply x :: put_object_phase2 xs
    rcases List.mem_cons.mp h with rfl | h1
    · exact List.mem_cons_of_mem _ (List.mem_cons_self _ _)
    · exact List.mem_cons_of_mem _ (List.mem_cons_of_mem _ (ih h1))

theorem drop_not_mem_phase2 (remotes : List String) :
    PutStep.dropMultiplier ∉ put_object_phase2 remotes := by
  induction remotes with
  | nil => simp [put_object_phase2]
  | cons x xs ih =>
    intro h
    have h2 : PutStep.dropMultiplier ∈
        PutStep.sendPut x :: PutStep.awaitReply x :: put_object_phase2 xs := h
    rcases List.mem_cons.mp h2 with he | h3
    · exact PutStep.noConfusion he
    · rcases List.mem_cons.mp h3 with he | h4
      · exact PutStep.noConfusion he
      · exact ih h4

/-- C3 counterexample: for a single remote, put_object awaits the reply and
only afterwards drops the multiplier handle; the drop never precedes an
await. This refutes the claim that the subscribe handle is dropped before
awaiting any remote reply. -/
theorem put_object_drop_counterexample :
    put_object_trace ["r1"]
      = [PutStep.subscribeStream "r1", PutStep.sendPut "r1",
         PutStep.awaitReply "r1", PutStep.dropMultiplier]
  ∧ beforeIn PutStep.dropMultiplier (PutStep.awaitReply "r1")
      (put_object_trace ["r1"]) = false
  ∧ beforeIn (PutStep.awaitReply "r1") PutStep.dropMultiplier
      (put_object_trace ["r1"]) = true := by
  refine ⟨rfl, by decide, by decide⟩

/-- C3 (amended): put_object subscribes every remote before any send or
await, but the multiplexer subscribe handle is dropped only when the handler
returns, after every reply has been awaited; consequently, for as long as
the handle is open, will_be_new_tx stays true and read_cache receives every
frame published during the awaits. -/
theorem put_object_handle_dropped_last (remotes : List String) (r : String)
    (h : r ∈ remotes) :
    beforeIn (PutStep.subscribeStream r) (PutStep.awaitReply r)
        (put_object_trace remotes) = true
  ∧ beforeIn (PutStep.awaitReply r) PutStep.dropMultiplier
        (put_object_trace remotes) = true
  ∧ PutStep.dropMultiplier ∉
        put_object_phase1 remotes ++ put_object_phase2 remotes
  ∧ (∀ es : List MuxEvent, MuxEvent.closeSubscribe ∉ es →
        (mux_run es).will_be_new_tx = true ∧
          (mux_run es).read_cache = (mux_run es).seen) := by
  have hsub : PutStep.subscribeStream r ∈ put_object_phase1 remotes :=
    List.mem_map.mpr ⟨r, h, rfl⟩
  have hawait : PutStep.awaitReply r ∈ put_object_phase2 remotes :=
    awaitReply_mem_phase2 remotes r h
  refine ⟨?_, ?_, ?_, fun es hc => mux_no_close es hc⟩
  · unfold put_object_trace
    rw [List.append_assoc]
    exact beforeIn_append _ _ _ _ hsub (List.mem_append.mpr (Or.inl hawait))
  · unfold put_object_trace
    exact beforeIn_append _ _ _ _ (List.mem_append.mpr (Or.inr hawait))
      (List.mem_singleton.mpr rfl)
  · intro hmem
    rcases List.mem_append.mp hmem with hmem | hmem
    · obtain ⟨x, _, he⟩ := List.mem_map.mp hmem
      exact PutStep.noConfusion he
    · exact drop_not_mem_phase2 remotes hmem

/-- Witness for put_object_handle_dropped_last at a single remote. -/
theorem put_object_handle_dropped_last_witness :
    beforeIn (PutStep.awaitReply "r1") PutStep.dropMultiplier
        (put_object_trace ["r1"]) = true :=
  (put_object_handle_dropped_last ["r1"] "r1" (by decide)).2.1

/-! ### Supervisor shutdown (src/main.rs lines 122-166) and the actor
receive loop (src/server/remote.rs lines 149-384) -/

/-- One step of the s3_reproxy shutdown path. -/
inductive SupStep where
  | stopAccepting
  | sendShutdown (remote : String)
  | gracefulShutdown
  | joinRemoteTasks
  | exitOk
deriving Repr, DecidableEq

/-- Embeds the order of the shutdown path of s3_reproxy after a SIGINT or
SIGTERM: break out of the accept loop (no new connections), send Shutdown to
every remote actor (main.rs lines 155-159), await graceful.shutdown()
draining in-flight HTTP connections (line 161), join all remote tasks
(line 162), then return Ok. -/
def shutdown_trace (remotes : List String) : List SupStep :=
  SupStep.stopAccepting ::
    (remotes.map SupStep.sendShutdown ++
      [SupStep.gracefulShutdown, SupStep.joinRemoteTasks, SupStep.exitOk])

/-- A message in a remote actor mailbox: a data operation (identified by a
number; e.g. one PutObject) or the Shutdown message. -/
inductive ActorMsg where
  | op (id : Nat)
  | shutdown
deriving Repr, DecidableEq

/-- Embeds the actor receive loop of spawn_remote: messages are processed
strictly in receipt order, each data message running its backend call to
completion and sending its reply; Shutdown breaks the loop. The result is
the sequence of data messages fully processed before the actor exits. -/
def actor_run : List ActorMsg → List Nat
  | [] => []
  | ActorMsg.op n :: rest => n :: actor_run rest
  | ActorMsg.shutdown :: _ => []

/-- The ids of the data messages of a mailbox segment. -/
def opIds (msgs : List ActorMsg) : List Nat :=
  msgs.filterMap (fun m =>
    match m with
    | ActorMsg.op n => some n
    | ActorMsg.shutdown => none)

theorem beforeIn_cons_of {α : Type} [DecidableEq α] (a b x : α) (l : List α)
    (h : beforeIn a b l = true) : beforeIn a b (x :: l) = true := by
  simp [beforeIn, h]

theorem actor_run_fifo (pre post : List ActorMsg)
    (hpre : ActorMsg.shutdown ∉ pre) :
    actor_run (pre ++ ActorMsg.shutdown :: post) = opIds pre := by
  induction pre with
  | nil => rfl
  | cons m rest ih =>
    cases m with
    | op n =>
      have hrest : ActorMsg.shutdown ∉ rest :=
        fun hx => hpre (List.mem_cons_of_mem _ hx)
      simp only [List.cons_append, actor_run, opIds, List.filterMap_cons]
      exact congrArg (List.cons n) (ih hrest)
    | shutdown => exact absurd (List.mem_cons_self _ _) hpre

/-- C7 counterexample: in the shutdown path, the Shutdown message to a
remote actor is sent strictly before graceful.shutdown() is awaited, never
after it. This refutes the claimed order (in-flight HTTP drained first, then
Shutdown sent). -/
theorem shutdown_order_counterexample :
    beforeIn (SupStep.sendShutdown "r1") SupStep.gracefulShutdown
        (shutdown_trace ["r1"]) = true
  ∧ beforeIn SupStep.gracefulShutdown (SupStep.sendShutdown "r1")
        (shutdown_trace ["r1"]) = false := by
  refine ⟨by decide, by decide⟩

/-- C7 (amended): on a shutdown signal the process stops accepting first,
then sends Shutdown to every actor, then waits for in-flight HTTP under the
graceful umbrella, then joins the actor tasks, then exits; an actor
processes every data message enqueued before the Shutdown message to
completion before exiting (FIFO mailbox), so an in-flight PUT completes on a
remote only if its PutObject message reached that mailbox before the
Shutdown message — completion on every remote is not guaranteed. -/
theorem shutdown_order_amended (remotes : List String) (r : String)
    (h : r ∈ remotes) (pre post : List ActorMsg)
    (hpre : ActorMsg.shutdown ∉ pre) :
    (shutdown_trace remotes).head? = some SupStep.stopAccepting
  ∧ beforeIn (SupStep.sendShutdown r) SupStep.gracefulShutdown
        (shutdown_trace remotes) = true
  ∧ beforeIn SupStep.gracefulShutdown SupStep.joinRemoteTasks
        (shutdown_trace remotes) = true
  ∧ beforeIn SupStep.joinRemoteTasks SupStep.exitOk
        (shutdown_trace remotes) = true
  ∧ actor_run (pre ++ ActorMsg.shutdown :: post) = opIds pre := by
  refine ⟨rfl, ?_, ?_, ?_, actor_run_fifo pre post hpre⟩
  · apply beforeIn_cons_of
    exact beforeIn_append _ _ _ _ (List.mem_map.mpr ⟨r, h, rfl⟩) (by decide)
  · apply beforeIn_cons_of
    have hsplit :
        remotes.map SupStep.sendShutdown ++
            [SupStep.gracefulShutdown, SupStep.joinRemoteTasks, SupStep.exitOk]
          = (remotes.map SupStep.sendShutdown ++ [SupStep.gracefulShutdown]) ++
              [SupStep.joinRemoteTasks, SupStep.exitOk] := by
      simp
    rw [hsplit]
    exact beforeIn_append _ _ _ _ (List.mem_append.mpr (Or.inr (by decide)))
      (by decide)
  · apply beforeIn_cons_of
    have hsplit :
        remotes.map SupStep.sendShutdown ++
            [SupStep.gracefulShutdown, SupStep.joinRemoteTasks, SupStep.exitOk]
          = (remotes.map SupStep.sendShutdown ++
              [SupStep.gracefulShutdown, SupStep.joinRemoteTasks]) ++
              [SupStep.exitOk] := by
      simp
    rw [hsplit]
    exact beforeIn_append _ _ _ _ (List.mem_append.mpr (Or.inr (by decide)))
      (by decide)

/-- Witness for shutdown_order_amended: one remote, one PutObject message
enqueued before the Shutdown message is fully processed before exit. -/
theorem shutdown_order_amended_witness :
    actor_run [ActorMsg.op 1, ActorMsg.shutdown] = opIds [ActorMsg.op 1] :=
  (shutdown_order_amended ["r1"] "r1" (by decide) [ActorMsg.op 1] []
    (by decide)).2.2.2.2

/-! ### Remote actor health tracking (src/server/remote.rs lines 393-416 and
the HealthCheck arm, lines 156-167) -/

/-- Outcome of one backend SDK call as seen by map_health: a success, a
service-level error (the remote replied with an S3 error envelope), or any
other SdkError (transport failure: DNS, TCP, TLS, timeout). -/
inductive SdkResult (T E : Type) where
  | ok (t : T)
  | serviceError (e : E)
  | transportError (msg : String)
deriving Repr, DecidableEq

/-- Embeds map_health: a success maps to Some(Ok) and health up, a service
error to Some(Err) and health up (a ServiceError came from the remote, so
the remote is not judged down), any other error to None and health down.
The new health is stored, and a transition line is logged exactly when the
stored health differed from the new value (the initial state None always
differs). Returns (reply, new health state, whether a line was logged). -/
def map_health {T E : Type} (self_health : Option Bool) (query : SdkResult T E) :
    Option (Except E T) × Option Bool × Bool :=
  let qh : Option (Except E T) × Bool :=
    match query with
    | SdkResult.ok t => (some (Except.ok t), true)
    | SdkResult.serviceError e => (some (Except.error e), true)
    | SdkResult.transportError _ => (none, false)
  (qh.1, some qh.2, self_health != some qh.2)

/-- Embeds the HealthCheck arm of the actor loop: run the head_bucket probe
through map_health and reply true exactly when the probe was Some(Ok). -/
def health_check_reply {T E : Type} (self_health : Option Bool)
    (probe : SdkResult T E) : Bool × Option Bool × Bool :=
  let r := map_health self_health probe
  (match r.1 with
   | some (Except.ok _) => true
   | _ => false,
   r.2)

/-- C8: after every backend call, a transport-level SDK failure sets health
to down and any reply (success or service error) sets health to up; the
transition line is emitted exactly when the new health differs from the
stored one (so always from the initial unknown state, and never on a
repeat of the same outcome class); and a HealthCheck is answered true if
and only if the head_bucket probe returned success. -/
theorem map_health_spec {T E : Type} (h0 : Option Bool) :
    (∀ t : T, map_health (E := E) h0 (SdkResult.ok t)
        = (some (Except.ok t), some true, h0 != some true))
  ∧ (∀ e : E, map_health (T := T) h0 (SdkResult.serviceError e)
        = (some (Except.error e), some true, h0 != some true))
  ∧ (∀ m, map_health (T := T) (E := E) h0 (SdkResult.transportError m)
        = (none, some false, h0 != some false))
  ∧ (∀ q : SdkResult T E, (map_health h0 q).2.2 = (h0 != (map_health h0 q).2.1))
  ∧ (∀ q : SdkResult T E,
        (map_health (map_health h0 q).2.1 q).2.2 = false)
  ∧ (map_health (E := E) (T := T) none (SdkResult.transportError "x")).2.2 = true
  ∧ (∀ q : SdkResult T E, (health_check_reply h0 q).1 = true ↔ ∃ t, q = SdkResult.ok t) := by
  refine ⟨fun t => rfl, fun e => rfl, fun m => rfl, ?_, ?_, rfl, ?_⟩
  · intro q
    cases q <;> rfl
  · intro q
    cases q <;> simp [map_health]
  · intro q
    cases q with
    | ok t => simp [health_check_reply, map_health]
    | serviceError e => simp [health_check_reply, map_health]
    | transportError m => simp [health_check_reply, map_health]

/-! ### PutObject request cloning (src/server/clone.rs lines 33-71 and
130-225) and the remote PutObject arm (src/server/remote.rs lines 210-254) -/

/-- Abstract handle for a request body: the inbound client body, or a fresh
stream subscribed from the multiplexer built over the inbound body
(subscribe_stream; one fresh handle per call, indexed). -/
inductive BodyStream where
  | clientBody
  | subscribedStream (index : Nat)
deriving Repr, DecidableEq

/-- The aws PutObjectInput as carried through clone.rs: the body plus every
non-body field (enum-valued SDK fields are modelled by their string tokens,
timestamps and lengths by integers, metadata by an association list). -/
structure PutObjectInput where
  body : BodyStream
  acl : Option String
  bucket : Option String
  cache_control : Option String
  content_disposition : Option String
  content_encoding : Option String
  content_language : Option String
  content_length : Option Int
  content_md5 : Option String
  content_type : Option String
  checksum_algorithm : Option String
  checksum_crc32 : Option String
  checksum_crc32_c : Option String
  checksum_sha1 : Option String
  checksum_sha256 : Option String
  expires : Option Int
  grant_full_control : Option String
  grant_read : Option String
  grant_read_acp : Option String
  grant_write_acp : Option String
  key : Option String
  metadata : Option (List (String × String))
  server_side_encryption : Option String
  storage_class : Option String
  website_redirect_location : Option String
  sse_customer_algorithm : Option String
  sse_customer_key : Option String
  sse_customer_key_md5 : Option String
  ssekms_key_id : Option String
  ssekms_encryption_context : Option String
  bucket_key_enabled : Option Bool
  request_payer : Option String
  tagging : Option String
  object_lock_mode : Option String
  object_lock_retain_until_date : Option Int
  object_lock_legal_hold_status : Option String
  expected_bucket_owner : Option String
deriving Repr, DecidableEq

/-- PutObjectInputMultiplier (clone.rs lines 33-71): every non-body field of
the inbound input held by value; the body has been handed to the
multiplexer (modelled separately by MuxState). -/
structure PutObjectInputMultiplier where
  acl : Option String
  bucket : Option String
  cache_control : Option String
  content_disposition : Option String
  content_encoding : Option String
  content_language : Option String
  content_length : Option Int
  content_md5 : Option String
  content_type : Option String
  checksum_algorithm : Option String
  checksum_crc32 : Option String
  checksum_crc32_c : Option String
  checksum_sha1 : Option String
  checksum_sha256 : Option String
  expires : Option Int
  grant_full_control : Option String
  grant_read : Option String
  grant_read_acp : Option String
  grant_write_acp : Option String
  key : Option String
  metadata : Option (List (String × String))
  server_side_encryption : Option String
  storage_class : Option String
  website_redirect_location : Option String
  sse_customer_algorithm : Option String
  sse_customer_key : Option String
  sse_customer_key_md5 : Option String
  ssekms_key_id : Option String
  ssekms_encryption_context : Option String
  bucket_key_enabled : Option Bool
  request_payer : Option String
  tagging : Option String
  object_lock_mode : Option String
  object_lock_retain_until_date : Option Int
  object_lock_legal_hold_status : Option String
  expected_bucket_owner : Option String
deriving Repr, DecidableEq

/-- Embeds PutObjectInputMultiplier::from_input (clone.rs lines 131-173):
moves every non-body field into the multiplier; the body goes to
ByteStreamMultiplier::from_bytestream. -/
def PutObjectInputMultiplier.from_input (input : PutObjectInput) :
    PutObjectInputMultiplier :=
  { acl := input.acl
    bucket := input.bucket
    cache_control := input.cache_control
    content_disposition := input.content_disposition
    content_encoding := input.content_encoding
    content_language := input.content_language
    content_length := input.content_length
    content_md5 := input.content_md5
    content_type := input.content_type
    checksum_algorithm := input.checksum_algorithm
    checksum_crc32 := input.checksum_crc32
    checksum_crc32_c := input.checksum_crc32_c
    checksum_sha1 := input.checksum_sha1
    checksum_sha256 := input.checksum_sha256
    expires := input.expires
    grant_full_control := input.grant_full_control
    grant_read := input.grant_read
    grant_read_acp := input.grant_read_acp
    grant_write_acp := input.grant_write_acp
    key := input.key
    metadata := input.metadata
    server_side_encryption := input.server_side_encryption
    storage_class := input.storage_class
    website_redirect_location := input.website_redirect_location
    sse_customer_algorithm := input.sse_customer_algorithm
    sse_customer_key := input.sse_customer_key
    sse_customer_key_md5 := input.sse_customer_key_md5
    ssekms_key_id := input.ssekms_key_id
    ssekms_encryption_context := input.ssekms_encryption_context
    bucket_key_enabled := input.bucket_key_enabled
    request_payer := input.request_payer
    tagging := input.tagging
    object_lock_mode := input.object_lock_mode
    object_lock_retain_until_date := input.object_lock_retain_until_date
    object_lock_legal_hold_status := input.object_lock_legal_hold_status
    expected_bucket_owner := input.expected_bucket_owner }

/-- Embeds PutObjectInputMultiplier::input (clone.rs lines 175-220): build a
fresh PutObjectInput from the stored fields, with the body replaced by a
fresh subscribed stream (the index distinguishes the per-call subscription
obtained from subscribe_stream). -/
def PutObjectInputMultiplier.input (m : PutObjectInputMultiplier) (n : Nat) :
    PutObjectInput :=
  { body := BodyStream.subscribedStream n
    acl := m.acl
    bucket := m.bucket
    cache_control := m.cache_control
    content_disposition := m.content_disposition
    content_encoding := m.content_encoding
    content_language := m.content_language
    content_length := m.content_length
    content_md5 := m.content_md5
    content_type := m.content_type
    checksum_algorithm := m.checksum_algorithm
    checksum_crc32 := m.checksum_crc32
    checksum_crc32_c := m.checksum_crc32_c
    checksum_sha1 := m.checksum_sha1
    checksum_sha256 := m.checksum_sha256
    expires := m.expires
    grant_full_control := m.grant_full_control
    grant_read := m.grant_read
    grant_read_acp := m.grant_read_acp
    grant_write_acp := m.grant_write_acp
    key := m.key
    metadata := m.metadata
    server_side_encryption := m.server_side_encryption
    storage_class := m.storage_class
    website_redirect_location := m.website_redirect_location
    sse_customer_algorithm := m.sse_customer_algorithm
    sse_customer_key := m.sse_customer_key
    sse_customer_key_md5 := m.sse_customer_key_md5
    ssekms_key_id := m.ssekms_key_id
    ssekms_encryption_context := m.ssekms_encryption_context
    bucket_key_enabled := m.bucket_key_enabled
    request_payer := m.request_payer
    tagging := m.tagging
    object_lock_mode := m.object_lock_mode
    object_lock_retain_until_date := m.object_lock_retain_until_date
    object_lock_legal_hold_status := m.object_lock_legal_hold_status
    expected_bucket_owner := m.expected_bucket_owner }

/-- The backend put_object call built by the remote actor: the bucket is no
longer optional (set directly from the per-remote configured bucket). -/
structure PutObjectCall where
  bucket : String
  body : BodyStream
  acl : Option String
  cache_control : Option String
  content_disposition : Option String
  content_encoding : Option String
  content_language : Option String
  content_length : Option Int
  content_md5 : Option String
  content_type : Option String
  checksum_algorithm : Option String
  checksum_crc32 : Option String
  checksum_crc32_c : Option String
  checksum_sha1 : Option String
  checksum_sha256 : Option String
  expires : Option Int
  grant_full_control : Option String
  grant_read : Option String
  grant_read_acp : Option String
  grant_write_acp : Option String
  key : Option String
  metadata : Option (List (String × String))
  server_side_encryption : Option String
  storage_class : Option String
  website_redirect_location : Option String
  sse_customer_algorithm : Option String
  sse_customer_key : Option String
  sse_customer_key_md5 : Option String
  ssekms_key_id : Option String
  ssekms_encryption_context : Option String
  bucket_key_enabled : Option Bool
  request_payer : Option String
  tagging : Option String
  object_lock_mode : Option String
  object_lock_retain_until_date : Option Int
  object_lock_legal_hold_status : Option String
  expected_bucket_owner : Option String
deriving Repr, DecidableEq

/-- Embeds the PutObject arm of spawn_remote (remote.rs lines 210-254):
the builder sets the bucket to the per-target configured bucket and copies
every other field of the received input (the received bucket field is not
used). -/
def remote_put_object (target_bucket : String) (input : PutObjectInput) :
    PutObjectCall :=
  { bucket := target_bucket
    body := input.body
    acl := input.acl
    cache_control := input.cache_control
    content_disposition := input.content_disposition
    content_encoding := input.content_encoding
    content_language := input.content_language
    content_length := input.content_length
    content_md5 := input.content_md5
    content_type := input.content_type
    checksum_algorithm := input.checksum_algorithm
    checksum_crc32 := input.checksum_crc32
    checksum_crc32_c := input.checksum_crc32_c
    checksum_sha1 := input.checksum_sha1
    checksum_sha256 := input.checksum_sha256
    expires := input.expires
    grant_full_control := input.grant_full_control
    grant_read := input.grant_read
    grant_read_acp := input.grant_read_acp
    grant_write_acp := input.grant_write_acp
    key := input.key
    metadata := input.metadata
    server_side_encryption := input.server_side_encryption
    storage_class := input.storage_class
    website_redirect_location := input.website_redirect_location
    sse_customer_algorithm := input.sse_customer_algorithm
    sse_customer_key := input.sse_customer_key
    sse_customer_key_md5 := input.sse_customer_key_md5
    ssekms_key_id := input.ssekms_key_id
    ssekms_encryption_context := input.ssekms_encryption_context
    bucket_key_enabled := input.bucket_key_enabled
    request_payer := input.request_payer
    tagging := input.tagging
    object_lock_mode := input.object_lock_mode
    object_lock_retain_until_date := input.object_lock_retain_until_date
    object_lock_legal_hold_status := input.object_lock_legal_hold_status
    expected_bucket_owner := input.expected_bucket_owner }

/-- C9: for every put_object request and every remote, the backend call
issued by the remote actor carries every field of the inbound request
verbatim — checksums, SSE headers, tagging, object-lock settings, ACL
grants, metadata, storage class and content-* headers included — except the
bucket, rewritten to the per-remote configured bucket, and the body,
replaced by a fresh subscribed stream; and any stream subscribed from the
multiplexer is delivered exactly the bytes of the inbound body. -/
theorem put_object_forward_verbatim (orig : PutObjectInput)
    (target_bucket : String) (n : Nat) :
    remote_put_object target_bucket
        ((PutObjectInputMultiplier.from_input orig).input n)
      = { bucket := target_bucket
          body := BodyStream.subscribedStream n
          acl := orig.acl
          cache_control := orig.cache_control
          content_disposition := orig.content_disposition
          content_encoding := orig.content_encoding
          content_language := orig.content_language
          content_length := orig.content_length
          content_md5 := orig.content_md5
          content_type := orig.content_type
          checksum_algorithm := orig.checksum_algorithm
          checksum_crc32 := orig.checksum_crc32
          checksum_crc32_c := orig.checksum_crc32_c
          checksum_sha1 := orig.checksum_sha1
          checksum_sha256 := orig.checksum_sha256
          expires := orig.expires
          grant_full_control := orig.grant_full_control
          grant_read := orig.grant_read
          grant_read_acp := orig.grant_read_acp
          grant_write_acp := orig.grant_write_acp
          key := orig.key
          metadata := orig.metadata
          server_side_encryption := orig.server_side_encryption
          storage_class := orig.storage_class
          website_redirect_location := orig.website_redirect_location
          sse_customer_algorithm := orig.sse_customer_algorithm
          sse_customer_key := orig.sse_customer_key
          sse_customer_key_md5 := orig.sse_customer_key_md5
          ssekms_key_id := orig.ssekms_key_id
          ssekms_encryption_context := orig.ssekms_encryption_context
          bucket_key_enabled := orig.bucket_key_enabled
          request_payer := orig.request_payer
          tagging := orig.tagging
          object_lock_mode := orig.object_lock_mode
          object_lock_retain_until_date := orig.object_lock_retain_until_date
          object_lock_legal_hold_status := orig.object_lock_legal_hold_status
          expected_bucket_owner := orig.expected_bucket_owner }
  ∧ (∀ es : List MuxEvent, ∀ d ∈ (mux_run es).subs,
        dataBytes d = dataBytes (mux_run es).seen) := by
  refine ⟨rfl, ?_⟩
  intro es d hd
  rw [mux_subs_eq_seen es d hd]

/-- A concrete inbound put_object request used by the witness. -/
def witPutInput : PutObjectInput :=
  { body := BodyStream.clientBody
    acl := none
    bucket := some "proxy-bucket"
    cache_control := none
    content_disposition := none
    content_encoding := none
    content_language := none
    content_length := some 2
    content_md5 := none
    content_type := some "text/plain"
    checksum_algorithm := none
    checksum_crc32 := none
    checksum_crc32_c := none
    checksum_sha1 := none
    checksum_sha256 := none
    expires := none
    grant_full_control := none
    grant_read := none
    grant_read_acp := none
    grant_write_acp := none
    key := some "a/b"
    metadata := none
    server_side_encryption := none
    storage_class := none
    website_redirect_location := none
    sse_customer_algorithm := none
    sse_customer_key := none
    sse_customer_key_md5 := none
    ssekms_key_id := none
    ssekms_encryption_context := none
    bucket_key_enabled := none
    request_payer := none
    tagging := none
    object_lock_mode := none
    object_lock_retain_until_date := none
    object_lock_legal_hold_status := none
    expected_bucket_owner := none }

/-- Witness for put_object_forward_verbatim: a concrete subscriber of a
concrete two-frame run is delivered exactly the streamed bytes. -/
theorem put_object_forward_verbatim_witness :
    dataBytes [Except.ok [104], Except.ok [105]]
      = dataBytes (mux_run [MuxEvent.subscribe,
          MuxEvent.frame (Except.ok [104]),
          MuxEvent.frame (Except.ok [105])]).seen :=
  (put_object_forward_verbatim witPutInput "remote-bucket" 0).2
    [MuxEvent.subscribe, MuxEvent.frame (Except.ok [104]),
     MuxEvent.frame (Except.ok [105])]
    [Except.ok [104], Except.ok [105]] (by decide)

/-! ### Continuation-token translation (src/server/mod.rs list_objects_v2
lines 315-429 and src/db/mod.rs ListObjectTokens) -/

/-- A persisted paging token document (src/db/mod.rs lines 11-16); times are
modelled as naturals. -/
structure ListObjectTokens where
  start_after : String
  created_at : Nat
  consumed_at : Option Nat
deriving Repr, DecidableEq

/-- The list_object_tokens collection: association list from the hex _id to
the document. -/
abbrev TokenDB := List (String × ListObjectTokens)

/-- Hexadecimal digit (0-9, a-f, A-F). -/
def isHexChar (c : Char) : Bool :=
  c.isDigit || (97 ≤ c.toNat && c.toNat ≤ 102) || (65 ≤ c.toNat && c.toNat ≤ 70)

/-- Modelled from the mongodb driver interface: ObjectId::parse_str succeeds
exactly on 24-character hexadecimal strings and is the identity on them. -/
def parse_object_id (s : String) : Option String :=
  if s.length = 24 && s.toList.all isHexChar then some s else none

/-- First document with the given _id. -/
def find_token : TokenDB → String → Option ListObjectTokens
  | [], _ => none
  | (k, doc) :: rest, i => if k = i then some doc else find_token rest i

/-- Embeds the find_one_and_update of the list_objects_v2 ingress: find the
document with matching _id, set consumed_at = now on it, and return the
matched document (the driver returns the pre-update document by default;
the ingress only reads start_after, which the update does not touch). -/
def find_one_and_update_consume : TokenDB → String → Nat →
    Option ListObjectTokens × TokenDB
  | [], _, _ => (none, [])
  | (k, doc) :: rest, i, now =>
      if k = i then (some doc, (k, { doc with consumed_at := some now }) :: rest)
      else
        let r := find_one_and_update_consume rest i now
        (r.1, (k, doc) :: r.2)

/-- Embeds insert_one on list_object_tokens; the driver-generated ObjectId
of the new document is the freshId parameter. -/
def insert_token (db : TokenDB) (doc : ListObjectTokens) (freshId : String) :
    TokenDB :=
  db ++ [(freshId, doc)]

/-- The fields of an inbound ListObjectsV2 request used by the proxy
(pfx models the prefix field). -/
structure ListObjectsV2Request where
  continuation_token : Option String
  start_after : Option String
  pfx : Option String
  delimiter : Option String
  max_keys : Option Int
deriving Repr, DecidableEq

/-- One object entry of a listing response (only the key is read). -/
structure ObjectEntry where
  key : Option String
deriving Repr, DecidableEq

/-- The fields of a ListObjectsV2 response the token translation touches;
every other backend response field passes through unchanged. -/
structure ListObjectsV2Output where
  contents : Option (List ObjectEntry)
  continuation_token : Option String
  next_continuation_token : Option String
deriving Repr, DecidableEq

/-- Payload of a RemoteMessage::ListObjects (remote.rs lines 41-54): prefix
(pfx), delimiter, max_keys and the effective start_after. -/
structure ListMsg where
  pfx : Option String
  delimiter : Option String
  max_keys : Option Int
  start_after : Option String
deriving Repr, DecidableEq

/-- The message sent to every probed remote: client fields plus the
effective start_after `start_after.or(req.input.start_after)`
(mod.rs line 361). -/
def list_msg (req : ListObjectsV2Request) (token_sa : Option String) : ListMsg :=
  { pfx := req.pfx
    delimiter := req.delimiter
    max_keys := req.max_keys
    start_after := token_sa.or req.start_after }

/-- Observable outcome of one list_objects_v2 call: the response, the
token-store state at the moment the backend message is sent, the message
itself (none when the call failed before reaching the backend), and the
final token-store state. -/
structure ListCallTrace where
  response : Except S3Error ListObjectsV2Output
  db_at_backend_call : Option TokenDB
  backend_msg : Option ListMsg
  final_db : TokenDB
deriving Repr, DecidableEq

/-- The key of the last returned object:
`contents.as_ref().and_then(|e| e.last()).and_then(|e| e.key.clone())`. -/
def last_key (out : ListObjectsV2Output) : Option String :=
  (out.contents.bind List.getLast?).bind (fun o => o.key)

/-- Embeds the egress rewriting (mod.rs lines 393-426): echo the request
continuation token into the response; when the backend response carries a
next_continuation_token, mint a new document from the key of the last
returned object and return its id — unless contents is empty or the last
object has no key, in which case no document is inserted and no token is
returned. -/
def list_egress (db : TokenDB) (req_token : Option String)
    (out : ListObjectsV2Output) (now : Nat) (freshId : String)
    (msg : ListMsg) (db_at_call : TokenDB) : ListCallTrace :=
  let nextAndDb : Option String × TokenDB :=
    match out.next_continuation_token with
    | some _ =>
        match last_key out with
        | none => (none, db)
        | some lastKey =>
            (some freshId,
             insert_token db
               { start_after := lastKey, created_at := now, consumed_at := none }
               freshId)
    | none => (none, db)
  { response := Except.ok { out with continuation_token := req_token,
                                     next_continuation_token := nextAndDb.1 }
    db_at_backend_call := some db_at_call
    backend_msg := some msg
    final_db := nextAndDb.2 }

/-- Embeds the backend probe and egress of list_objects_v2 (mod.rs lines
355-429), after the ingress has produced the token start_after: build the
message, probe the remotes in read order, return InternalError when every
remote is skipped, map a service error, and rewrite tokens on success. -/
def list_core (db : TokenDB) (req : ListObjectsV2Request)
    (token_sa : Option String) (remotes : List S3Remote)
    (backend : S3Remote → ListMsg → RemoteReply ListObjectsV2Output)
    (now : Nat) (freshId : String) : ListCallTrace :=
  match probe_remotes (fun r => backend r (list_msg req token_sa))
      (sorted_by readCmp remotes) with
  | none =>
      { response := Except.error internalError
        db_at_backend_call := some db
        backend_msg := some (list_msg req token_sa)
        final_db := db }
  | some (_, Except.error e) =>
      { response := Except.error (convert_sdk_err e)
        db_at_backend_call := some db
        backend_msg := some (list_msg req token_sa)
        final_db := db }
  | some (_, Except.ok out) =>
      list_egress db req.continuation_token out now freshId
        (list_msg req token_sa) db

/-- Embeds list_objects_v2 end to end (mod.rs lines 315-429): the ingress
parses and consumes the continuation token (InvalidToken on a malformed id
or a missing document), then probes the remotes and rewrites tokens. -/
def list_objects_v2 (db : TokenDB) (req : ListObjectsV2Request)
    (remotes : List S3Remote)
    (backend : S3Remote → ListMsg → RemoteReply ListObjectsV2Output)
    (now : Nat) (freshId : String) : ListCallTrace :=
  match req.continuation_token with
  | none => list_core db req none remotes backend now freshId
  | some tok =>
      match parse_object_id tok with
      | none =>
          { response := Except.error invalidToken
            db_at_backend_call := none
            backend_msg := none
            final_db := db }
      | some oid =>
          let r := find_one_and_update_consume db oid now
          match r.1 with
          | none =>
              { response := Except.error invalidToken
                db_at_backend_call := none
                backend_msg := none
                final_db := r.2 }
          | some doc =>
              list_core r.2 req (some doc.start_after) remotes backend now freshId

theorem find_consume_found (db : TokenDB) (i : String) (now : Nat)
    (doc : ListObjectTokens) (h : find_token db i = some doc) :
    (find_one_and_update_consume db i now).1 = some doc ∧
      find_token (find_one_and_update_consume db i now).2 i
        = some { doc with consumed_at := some now } := by
  induction db with
  | nil => simp [find_token] at h
  | cons p rest ih =>
    obtain ⟨k, d⟩ := p
    by_cases hk : k = i
    · simp only [find_token, hk, if_pos] at h
      simp only [find_one_and_update_consume, hk, if_pos]
      obtain rfl := Option.some.injEq d doc ▸ h
      exact ⟨rfl, by simp [find_token]⟩
    · simp only [find_token, hk, if_neg, not_false_iff] at h
      simp only [find_one_and_update_consume, hk, if_neg, not_false_iff]
      rcases ih h with ⟨h1, h2⟩
      exact ⟨h1, by simp only [find_token, hk, if_neg, not_false_iff]; exact h2⟩

theorem find_consume_not_found (db : TokenDB) (i : String) (now : Nat)
    (h : find_token db i = none) :
    (find_one_and_update_consume db i now).1 = none ∧
      (find_one_and_update_consume db i now).2 = db := by
  induction db with
  | nil => exact ⟨rfl, rfl⟩
  | cons p rest ih =>
    obtain ⟨k, d⟩ := p
    by_cases hk : k = i
    · simp [find_token, hk] at h
    · simp only [find_token, hk, if_neg, not_false_iff] at h
      simp only [find_one_and_update_consume, hk, if_neg, not_false_iff]
      rcases ih h with ⟨h1, h2⟩
      exact ⟨h1, by rw [h2]⟩

theorem list_core_fields (db : TokenDB) (req : ListObjectsV2Request)
    (token_sa : Option String) (remotes : List S3Remote)
    (backend : S3Remote → ListMsg → RemoteReply ListObjectsV2Output)
    (now : Nat) (freshId : String) :
    (list_core db req token_sa remotes backend now freshId).backend_msg
        = some (list_msg req token_sa)
  ∧ (list_core db req token_sa remotes backend now freshId).db_at_backend_call
        = some db := by
  unfold list_core
  cases hpr : probe_remotes (fun r => backend r (list_msg req token_sa))
      (sorted_by readCmp remotes) with
  | none => exact ⟨rfl, rfl⟩
  | some v =>
    obtain ⟨r0, out⟩ := v
    cases out with
    | ok o => exact ⟨rfl, rfl⟩
    | error e => exact ⟨rfl, rfl⟩

/-- C5: a malformed continuation token or one matching no stored document
fails with InvalidToken before any backend message is sent; a matching token
is consumed (consumed_at = now) in the store state in effect at the backend
call, and the backend message carries the stored start_after, overriding any
client-supplied start_after. -/
theorem list_token_ingress (db : TokenDB) (req : ListObjectsV2Request)
    (remotes : List S3Remote)
    (backend : S3Remote → ListMsg → RemoteReply ListObjectsV2Output)
    (now : Nat) (freshId : String) (tok : String)
    (htok : req.continuation_token = some tok) :
    (parse_object_id tok = none →
        list_objects_v2 db req remotes backend now freshId
          = { response := Except.error invalidToken, db_at_backend_call := none,
              backend_msg := none, final_db := db })
  ∧ (parse_object_id tok = some tok → find_token db tok = none →
        (list_objects_v2 db req remotes backend now freshId).response
            = Except.error invalidToken
      ∧ (list_objects_v2 db req remotes backend now freshId).backend_msg = none
      ∧ (list_objects_v2 db req remotes backend now freshId).final_db = db)
  ∧ (∀ doc, parse_object_id tok = some tok → find_token db tok = some doc →
        (list_objects_v2 db req remotes backend now freshId).backend_msg
            = some (list_msg req (some doc.start_after))
      ∧ (list_msg req (some doc.start_after)).start_after = some doc.start_after
      ∧ (list_objects_v2 db req remotes backend now freshId).db_at_backend_call
            = some (find_one_and_update_consume db tok now).2
      ∧ find_token (find_one_and_update_consume db tok now).2 tok
            = some { doc with consumed_at := some now }) := by
  refine ⟨?_, ?_, ?_⟩
  · intro hparse
    simp only [list_objects_v2, htok, hparse]
  · intro hparse hfind
    rcases find_consume_not_found db tok now hfind with ⟨h1, h2⟩
    simp only [list_objects_v2, htok, hparse, h1]
    exact ⟨trivial, trivial, h2⟩
  · intro doc hparse hfind
    rcases find_consume_found db tok now doc hfind with ⟨h1, h2⟩
    simp only [list_objects_v2, htok, hparse, h1]
    rcases list_core_fields (find_one_and_update_consume db tok now).2 req
        (some doc.start_after) remotes backend now freshId with ⟨hm, hd⟩
    exact ⟨hm, rfl, hd, h2⟩

/-- Concrete 24-character hex token id used by the listing witnesses. -/
def witTok : String := "aaaaaaaaaaaaaaaaaaaaaaaa"

/-- Concrete stored token document used by the listing witnesses. -/
def witTokenDoc : ListObjectTokens :=
  { start_after := "k2", created_at := 3, consumed_at := none }

/-- Concrete token store used by the listing witnesses. -/
def witListDb : TokenDB := [(witTok, witTokenDoc)]

/-- Concrete readable remote used by the listing theorems. -/
def witListRemote : S3Remote := { name := "lr", priority := 1, read_request := true }

/-- Concrete listing request presenting the stored token and a competing
client-supplied start_after. -/
def witListReq : ListObjectsV2Request :=
  { continuation_token := some witTok, start_after := some "client-sa",
    pfx := none, delimiter := none, max_keys := some 2 }

/-- Concrete backend reply used by the C5 witness. -/
def witListOut : ListObjectsV2Output :=
  { contents := some [{ key := some "k3" }, { key := some "k4" }],
    continuation_token := none, next_continuation_token := some "bk" }

/-- Concrete backend behavior used by the C5 witness. -/
def witBackend : S3Remote → ListMsg → RemoteReply ListObjectsV2Output :=
  fun _ _ => some (Except.ok witListOut)

/-- Witness for list_token_ingress: presenting the stored token yields a
backend message whose start_after is the stored "k2", not the
client-supplied "client-sa". -/
theorem list_token_ingress_witness :
    (list_objects_v2 witListDb witListReq [witListRemote] witBackend 9
        "bbbbbbbbbbbbbbbbbbbbbbbb").backend_msg
      = some (list_msg witListReq (some "k2")) :=
  ((list_token_ingress witListDb witListReq [witListRemote] witBackend 9
      "bbbbbbbbbbbbbbbbbbbbbbbb" witTok rfl).2.2 witTokenDoc rfl rfl).1

/-- Concrete backend reply reporting another page but with an empty contents
list, used by the C6 counterexample. -/
def witEmptyOut : ListObjectsV2Output :=
  { contents := some [], continuation_token := none,
    next_continuation_token := some "bk" }

/-- Concrete backend behavior returning witEmptyOut. -/
def witEmptyBackend : S3Remote → ListMsg → RemoteReply ListObjectsV2Output :=
  fun _ _ => some (Except.ok witEmptyOut)

/-- Concrete tokenless listing request. -/
def witNoTokenReq : ListObjectsV2Request :=
  { continuation_token := none, start_after := none, pfx := none,
    delimiter := none, max_keys := some 2 }

/-- C6 counterexample: the chosen backend reply carries a
next_continuation_token but an empty contents list; the proxy inserts no
token document and returns no next_continuation_token, refuting the claim
that a backend next_continuation_token always yields a minted token. -/
theorem list_egress_empty_counterexample :
    (list_objects_v2 [] witNoTokenReq [witListRemote] witEmptyBackend 9
        "cccccccccccccccccccccccc").response
      = Except.ok { contents := some [], continuation_token := none,
                    next_continuation_token := none }
  ∧ (list_objects_v2 [] witNoTokenReq [witListRemote] witEmptyBackend 9
        "cccccccccccccccccccccccc").final_db = [] :=
  ⟨rfl, rfl⟩

/-- C6 (amended): on a successful backend reply, the response echoes the
request continuation token unchanged; when the backend carries a
next_continuation_token and the contents list is nonempty with a keyed last
object, a document {start_after = that key, created_at = now} is inserted
and its id returned as next_continuation_token; when the backend reports no
more pages, no token is emitted and the store is unchanged. -/
theorem list_egress_token_mint (db : TokenDB) (req_token : Option String)
    (out : ListObjectsV2Output) (now : Nat) (freshId : String) (msg : ListMsg)
    (dbc : TokenDB) :
    (∀ s, out.next_continuation_token = some s → ∀ k, last_key out = some k →
        (list_egress db req_token out now freshId msg dbc).response
            = Except.ok { out with continuation_token := req_token,
                                   next_continuation_token := some freshId }
      ∧ (list_egress db req_token out now freshId msg dbc).final_db
            = db ++ [(freshId, { start_after := k, created_at := now,
                                 consumed_at := none })])
  ∧ (out.next_continuation_token = none →
        (list_egress db req_token out now freshId msg dbc).response
            = Except.ok { out with continuation_token := req_token,
                                   next_continuation_token := none }
      ∧ (list_egress db req_token out now freshId msg dbc).final_db = db)
  ∧ (∀ o, (list_egress db req_token out now freshId msg dbc).response
        = Except.ok o → o.continuation_token = req_token) := by
  refine ⟨?_, ?_, ?_⟩
  · intro s hnext k hlast
    simp only [list_egress, hnext, hlast]
    constructor <;> trivial
  · intro hnext
    simp only [list_egress, hnext]
    constructor <;> trivial
  · intro o h
    cases hnext : out.next_continuation_token with
    | none =>
      simp only [list_egress, hnext, Except.ok.injEq] at h
      rw [← h]
    | some s =>
      cases hlast : last_key out with
      | none =>
        simp only [list_egress, hnext, hlast, Except.ok.injEq] at h
        rw [← h]
      | some k =>
        simp only [list_egress, hnext, hlast, Except.ok.injEq] at h
        rw [← h]

/-- Witness for list_egress_token_mint: a two-object page with another page
reported mints a document keyed by the last object key "k4". -/
theorem list_egress_token_mint_witness :
    (list_egress [] (some witTok) witListOut 9 "dddddddddddddddddddddddd"
        (list_msg witListReq (some "k2")) []).final_db
      = [("dddddddddddddddddddddddd",
          { start_after := "k4", created_at := 9, consumed_at := none })] :=
  ((list_egress_token_mint [] (some witTok) witListOut 9
      "dddddddddddddddddddddddd" (list_msg witListReq (some "k2")) []).1
    "bk" rfl "k4" rfl).2

/-- C10: when the chosen backend reply carries a next_continuation_token but
its contents list is empty (or its last object has no key), the proxy
inserts no token document and returns no next_continuation_token, silently
ending pagination even though the backend reported more pages. -/
theorem list_egress_empty_page (db : TokenDB) (req_token : Option String)
    (out : ListObjectsV2Output) (now : Nat) (freshId : String) (msg : ListMsg)
    (dbc : TokenDB) (s : String)
    (hnext : out.next_continuation_token = some s)
    (hlast : last_key out = none) :
    (list_egress db req_token out now freshId msg dbc).response
        = Except.ok { out with continuation_token := req_token,
                               next_continuation_token := none }
  ∧ (list_egress db req_token out now freshId msg dbc).final_db = db := by
  simp only [list_egress, hnext, hlast]
  constructor <;> trivial

/-- Witness for list_egress_empty_page at the empty-contents backend
reply. -/
theorem list_egress_empty_page_witness :
    (list_egress [] none witEmptyOut 9 "eeeeeeeeeeeeeeeeeeeeeeee"
        (list_msg witNoTokenReq none) []).response
      = Except.ok { contents := some [], continuation_token := none,
                    next_continuation_token := none } :=
  (list_egress_empty_page [] none witEmptyOut 9 "eeeeeeeeeeeeeeeeeeeeeeee"
      (list_msg witNoTokenReq none) [] "bk" rfl rfl).1

/-- Witness for map_health_spec: a successful head_bucket probe is answered
true. -/
theorem map_health_spec_witness :
    (health_check_reply (T := Nat) (E := Nat) none (SdkResult.ok 5)).1 = true :=
  ((map_health_spec (T := Nat) (E := Nat) none).2.2.2.2.2.2
    (SdkResult.ok 5)).mpr ⟨5, rfl⟩
